import Mathlib

/-!
Verification of the projection engine of the Real Estate ROI dashboard.

The engine is embedded shallowly over the reals:
* the rent-escalation loop becomes the state function `current_rent` and the
  recorded series `rents`;
* the interest computation becomes `monthly_rates` and `interest_income`
  (real powers model the float expression `(1 + a) ** (1/12)`);
* numpy elementwise division of 1-d arrays becomes `npDivide`, which divides
  pointwise on equal lengths, broadcasts a length-1 operand, and signals a
  fatal shape error (`none`) on any other shape combination;
* the whole script slice from the rent loop to the summary statistics becomes
  `computeProjection`.
-/

namespace ROI

/-- Value of the loop variable `current_rent` after iteration `i` of the rent
loop: the loop multiplies by `(1 + rent_increase)` exactly when `i > 0` and
`i` is a multiple of 6, before the value is recorded. -/
def current_rent (monthly_rent rent_increase : ℝ) : ℕ → ℝ
  | 0 => monthly_rent
  | i + 1 =>
    if 0 < i + 1 ∧ (i + 1) % 6 = 0 then
      current_rent monthly_rent rent_increase i * (1 + rent_increase)
    else
      current_rent monthly_rent rent_increase i

/-- The rent series: the loop records `current_rent` at every index. -/
def rents (monthly_rent rent_increase : ℝ) (months : ℕ) : List ℝ :=
  (List.range months).map (current_rent monthly_rent rent_increase)

/-- Per-month equivalent monthly compounding rates:
`monthly_rates = (1 + annual_rates) ** (1/12) - 1`. -/
noncomputable def monthly_rates (annual_rates : List ℝ) : List ℝ :=
  annual_rates.map (fun a => (1 + a) ^ ((1 : ℝ) / 12) - 1)

/-- Monthly interest income on the constant principal:
`interest_income = initial_investment * monthly_rates`. -/
noncomputable def interest_income (initial_investment : ℝ) (annual_rates : List ℝ) : List ℝ :=
  (monthly_rates annual_rates).map (fun m => initial_investment * m)

/-- numpy elementwise division of 1-d arrays: pointwise on equal lengths, a
length-1 operand broadcasts, any other shape pair is a fatal shape error. -/
noncomputable def npDivide (xs ys : List ℝ) : Option (List ℝ) :=
  if xs.length = ys.length then some (List.zipWith (fun a b => a / b) xs ys)
  else if ys.length = 1 then some (xs.map (fun a => a / ys.headI))
  else if xs.length = 1 then some (ys.map (fun b => xs.headI / b))
  else none

/-- numpy arithmetic mean of a 1-d array. -/
noncomputable def npMean (xs : List ℝ) : ℝ := xs.sum / xs.length

/-- The summary statistics block of the script. -/
structure Summary where
  avg_interest_annual : ℝ
  avg_dollar_rate : ℝ
  avg_monthly_rent : ℝ

/-- The inputs the script reads: slider scalars, the horizon, and the two
per-month assumption arrays. -/
structure ScenarioInput where
  initial_investment : ℝ
  monthly_rent : ℝ
  rent_increase : ℝ
  months : ℕ
  annual_rates : List ℝ
  dollar_rates : List ℝ

/-- Everything the engine derives from a `ScenarioInput`. -/
structure ProjectionResult where
  rent_series : List ℝ
  interest_series : List ℝ
  rent_series_fx : List ℝ
  interest_series_fx : List ℝ
  summary : Summary

/-- The projection engine: rent schedule, interest income, the two USD
conversions and the summary statistics, exactly as the script computes them.
The result is absent when a numpy division aborts on a shape error. -/
noncomputable def computeProjection (s : ScenarioInput) : Option ProjectionResult :=
  match npDivide (rents s.monthly_rent s.rent_increase s.months) s.dollar_rates,
        npDivide (interest_income s.initial_investment s.annual_rates) s.dollar_rates with
  | some rents_usd, some interest_usd =>
      some ⟨rents s.monthly_rent s.rent_increase s.months,
            interest_income s.initial_investment s.annual_rates,
            rents_usd,
            interest_usd,
            ⟨npMean s.annual_rates * 100,
             npMean s.dollar_rates,
             npMean (rents s.monthly_rent s.rent_increase s.months)⟩⟩
  | _, _ => none

/-- The default annual-rate schedule of the script:
`[0.50]*6 + [0.40]*6 + [0.30]*6 + [0.25]*6`. -/
noncomputable def default_annual_rates : List ℝ :=
  List.replicate 6 0.50 ++ List.replicate 6 0.40 ++
    List.replicate 6 0.30 ++ List.replicate 6 0.25

/-- The default dollar-rate table of the script. -/
noncomputable def default_dollar_rates : List ℝ :=
  [39.0, 39.2, 39.5, 39.8, 40.1, 40.4,
   40.6, 41.0, 41.3, 41.6, 42.0, 42.4,
   42.8, 43.1, 43.5, 43.8, 44.1, 44.4,
   44.7, 45.0, 45.2, 45.5, 45.7, 46.0]

/-- The concrete default scenario: investment 2,500,000 TL, initial rent
20,000 TL, 15% rent increase every 6 months, 24-month horizon. -/
noncomputable def defaultInput : ScenarioInput :=
  ⟨2500000, 20000, 0.15, 24, default_annual_rates, default_dollar_rates⟩

/-- Rent series of the engine output, empty when the engine aborts. -/
noncomputable def proj_rent_series (s : ScenarioInput) : List ℝ :=
  (computeProjection s).elim [] ProjectionResult.rent_series

/-- Interest series of the engine output, empty when the engine aborts. -/
noncomputable def proj_interest_series (s : ScenarioInput) : List ℝ :=
  (computeProjection s).elim [] ProjectionResult.interest_series

/-- USD rent series of the engine output, empty when the engine aborts. -/
noncomputable def proj_rent_series_fx (s : ScenarioInput) : List ℝ :=
  (computeProjection s).elim [] ProjectionResult.rent_series_fx

/-- Entry `i` of a series, 0 past the end. -/
def seriesAt (xs : List ℝ) (i : ℕ) : ℝ := xs.getD i 0

/-- A one-month scenario whose fx rate is zero and whose annual rate is below
the -100% floor: both domain conditions of the spec are violated. -/
noncomputable def zeroFxInput : ScenarioInput :=
  ⟨2500000, 20000, 0.15, 1, [-2], [0]⟩

/-- A two-month scenario whose fx array has length 1 instead of 2. -/
noncomputable def shortFxInput : ScenarioInput :=
  ⟨2500000, 20000, 0.15, 2, [0.5, 0.5], [39.0]⟩

/-- A two-month scenario whose fx array has length 3 instead of 2. -/
noncomputable def longFxInput : ScenarioInput :=
  ⟨2500000, 20000, 0.15, 2, [0.5, 0.5], [39.0, 40.0, 41.0]⟩

/-- A two-month scenario whose rate array has length 3 instead of 2, the fx
array having the correct length. -/
noncomputable def longRatesInput : ScenarioInput :=
  ⟨2500000, 20000, 0.15, 2, [0.5, 0.5, 0.5], [39.0, 40.0]⟩

lemma current_rent_succ (m r : ℝ) (i : ℕ) :
    current_rent m r (i + 1) =
      if (i + 1) % 6 = 0 then current_rent m r i * (1 + r) else current_rent m r i := by
  simp [current_rent]

/-- Closed form of the rent loop state: the escalations compound. -/
lemma current_rent_closed (m r : ℝ) (i : ℕ) :
    current_rent m r i = m * (1 + r) ^ (i / 6) := by
  induction i with
  | zero => simp [current_rent]
  | succ i ih =>
    rw [current_rent_succ, ih]
    by_cases h : (i + 1) % 6 = 0
    · have hdiv : (i + 1) / 6 = i / 6 + 1 := by omega
      simp [h, hdiv, pow_succ, mul_assoc]
    · have hdiv : (i + 1) / 6 = i / 6 := by omega
      simp [h, hdiv]

lemma current_rent_pos (m r : ℝ) (i : ℕ) (hm : 0 < m) (hr : 0 ≤ r) :
    0 < current_rent m r i := by
  rw [current_rent_closed]
  exact mul_pos hm (pow_pos (by linarith) _)

lemma current_rent_mono (m r : ℝ) (i j : ℕ) (hm : 0 < m) (hr : 0 ≤ r) (hij : i ≤ j) :
    current_rent m r i ≤ current_rent m r j := by
  rw [current_rent_closed, current_rent_closed]
  have h1 : (1 : ℝ) ≤ 1 + r := by linarith
  exact mul_le_mul_of_nonneg_left
    (pow_le_pow_right₀ h1 (Nat.div_le_div_right hij)) hm.le

lemma rents_length (m r : ℝ) (n : ℕ) : (rents m r n).length = n := by
  simp [rents]

lemma rents_getElem (m r : ℝ) (n i : ℕ) (h : i < (rents m r n).length) :
    (rents m r n)[i] = current_rent m r i := by
  simp [rents]

/-- C1: for positive initial rent, an increase rate in [0,1] and a horizon of
at least one month, the rent series starts at the initial rent, is
non-decreasing, strictly increases exactly at the positive multiples of 6
when the rate is positive (the escalated value being the one recorded at such
an index), and is constant equal to the initial rent when the rate is 0. -/
theorem C1_rent_series_shape (m r : ℝ) (n : ℕ)
    (hm : 0 < m) (hr0 : 0 ≤ r) (hr1 : r ≤ 1) (hn : 1 ≤ n) :
    (rents m r n)[0]? = some m ∧
    (∀ i j (hi : i < (rents m r n).length) (hj : j < (rents m r n).length),
      i ≤ j → (rents m r n)[i] ≤ (rents m r n)[j]) ∧
    (0 < r → ∀ i (hi : i < (rents m r n).length) (hi1 : i + 1 < (rents m r n).length),
      ((rents m r n)[i] < (rents m r n)[i + 1] ↔ (i + 1) % 6 = 0)) ∧
    (∀ i (hi : i < (rents m r n).length) (hi1 : i + 1 < (rents m r n).length),
      (i + 1) % 6 = 0 → (rents m r n)[i + 1] = (rents m r n)[i] * (1 + r)) ∧
    (r = 0 → ∀ i (hi : i < (rents m r n).length), (rents m r n)[i] = m) := by
  refine ⟨?_, ?_, ?_, ?_, ?_⟩
  · have h0 : 0 < (rents m r n).length := by rw [rents_length]; omega
    rw [List.getElem?_eq_getElem h0, rents_getElem]
    simp [current_rent]
  · intro i j hi hj hij
    rw [rents_getElem, rents_getElem]
    exact current_rent_mono m r i j hm hr0 hij
  · intro hr i hi hi1
    have hpos := current_rent_pos m r i hm hr0
    by_cases h6 : (i + 1) % 6 = 0
    · rw [rents_getElem, rents_getElem, current_rent_succ, if_pos h6,
        lt_mul_iff_one_lt_right hpos]
      exact iff_of_true (by linarith) h6
    · rw [rents_getElem, rents_getElem, current_rent_succ, if_neg h6]
      exact iff_of_false (lt_irrefl _) h6
  · intro i hi hi1 h6
    rw [rents_getElem, rents_getElem, current_rent_succ, if_pos h6]
  · intro hr i hi
    rw [rents_getElem, current_rent_closed, hr]
    simp

theorem C1_rent_series_shape_witness :
    (0 : ℝ) < 20000 ∧ (0 : ℝ) ≤ 0.15 ∧ (0.15 : ℝ) ≤ 1 ∧ (1 : ℕ) ≤ 24 ∧
      (rents 20000 0.15 24)[0]? = some 20000 :=
  ⟨by norm_num, by norm_num, by norm_num, by norm_num,
    (C1_rent_series_shape 20000 0.15 24 (by norm_num) (by norm_num)
      (by norm_num) (by norm_num)).1⟩

/-- C10: closed form of the rent schedule: the entry at 0-based index `i` is
`initial_rent * (1 + increase_rate) ^ (i / 6)` with integer division, i.e.
the step escalations compound multiplicatively. -/
theorem C10_rent_closed_form (m r : ℝ) (n i : ℕ) (hi : i < n) :
    (rents m r n)[i]? = some (m * (1 + r) ^ (i / 6)) := by
  have hi2 : i < (rents m r n).length := by rw [rents_length]; exact hi
  rw [List.getElem?_eq_getElem hi2, rents_getElem, current_rent_closed]

lemma monthly_rates_length (annual : List ℝ) :
    (monthly_rates annual).length = annual.length := by
  simp [monthly_rates]

lemma interest_income_length (p : ℝ) (annual : List ℝ) :
    (interest_income p annual).length = annual.length := by
  simp [interest_income, monthly_rates]

lemma npDivide_eq (xs ys : List ℝ) (h : xs.length = ys.length) :
    npDivide xs ys = some (List.zipWith (fun a b => a / b) xs ys) := by
  simp [npDivide, h]

lemma npDivide_broadcast (xs ys : List ℝ) (h : xs.length ≠ ys.length)
    (h1 : ys.length = 1) :
    npDivide xs ys = some (xs.map (fun a => a / ys.headI)) := by
  unfold npDivide
  rw [if_neg h, if_pos h1]

lemma npDivide_none (xs ys : List ℝ) (h : xs.length ≠ ys.length)
    (h1 : ys.length ≠ 1) (h2 : xs.length ≠ 1) :
    npDivide xs ys = none := by
  simp [npDivide, h, h1, h2]

/-- On well-shaped inputs the engine returns exactly the script's five
derived values. -/
lemma computeProjection_eq (s : ScenarioInput)
    (h1 : s.annual_rates.length = s.months)
    (h2 : s.dollar_rates.length = s.months) :
    computeProjection s = some
      ⟨rents s.monthly_rent s.rent_increase s.months,
       interest_income s.initial_investment s.annual_rates,
       List.zipWith (fun a b => a / b)
         (rents s.monthly_rent s.rent_increase s.months) s.dollar_rates,
       List.zipWith (fun a b => a / b)
         (interest_income s.initial_investment s.annual_rates) s.dollar_rates,
       ⟨npMean s.annual_rates * 100, npMean s.dollar_rates,
        npMean (rents s.monthly_rent s.rent_increase s.months)⟩⟩ := by
  have e1 := npDivide_eq (rents s.monthly_rent s.rent_increase s.months)
    s.dollar_rates (by rw [rents_length, h2])
  have e2 := npDivide_eq (interest_income s.initial_investment s.annual_rates)
    s.dollar_rates (by rw [interest_income_length, h1, h2])
  simp [computeProjection, e1, e2]

lemma seriesAt_zipWith (f : ℝ → ℝ → ℝ) (xs ys : List ℝ) (i : ℕ)
    (h1 : i < xs.length) (h2 : i < ys.length) :
    seriesAt (List.zipWith f xs ys) i = f (seriesAt xs i) (seriesAt ys i) := by
  have hz : i < (List.zipWith f xs ys).length := by
    rw [List.length_zipWith]; omega
  rw [seriesAt, seriesAt, seriesAt, List.getD_eq_getElem _ _ hz,
    List.getD_eq_getElem _ _ h1, List.getD_eq_getElem _ _ h2,
    List.getElem_zipWith]

lemma seriesAt_rents (m r : ℝ) (n i : ℕ) (h : i < n) :
    seriesAt (rents m r n) i = m * (1 + r) ^ (i / 6) := by
  have h2 : i < (rents m r n).length := by rw [rents_length]; exact h
  rw [seriesAt, List.getD_eq_getElem _ _ h2, rents_getElem, current_rent_closed]

/-- C2: the interest series has one entry per annual rate and each entry is
the principal times the equivalent monthly compounding rate
`(1 + a) ^ (1/12) - 1`; the principal is the same constant at every index
(no reinvestment). The embedding is exact, so the equality holds outright,
in particular within the 1e-9 relative tolerance of the spec. -/
theorem C2_interest_series (p : ℝ) (rates : List ℝ)
    (hr : ∀ a ∈ rates, -1 ≤ a) :
    (interest_income p rates).length = rates.length ∧
    ∀ i (hi : i < rates.length),
      (interest_income p rates)[i]? =
        some (p * ((1 + rates[i]) ^ ((1 : ℝ) / 12) - 1)) := by
  refine ⟨interest_income_length p rates, ?_⟩
  intro i hi
  have hlen : i < (interest_income p rates).length := by
    rw [interest_income_length]; exact hi
  rw [List.getElem?_eq_getElem hlen]
  simp [interest_income, monthly_rates]

theorem C2_interest_series_witness :
    (∀ a ∈ ([0.5] : List ℝ), -1 ≤ a) ∧
    (interest_income 2500000 [0.5])[0]? =
      some ((2500000 : ℝ) * ((1 + 0.5) ^ ((1 : ℝ) / 12) - 1)) :=
  ⟨by norm_num, by
    simpa using (C2_interest_series 2500000 [0.5] (by norm_num)).2 0 (by norm_num)⟩

/-- C4: on a well-shaped scenario with positive fx rates, the engine's two
foreign-currency series are the elementwise quotients of the base series by
the fx rates. -/
theorem C4_fx_conversion (s : ScenarioInput)
    (h1 : s.annual_rates.length = s.months)
    (h2 : s.dollar_rates.length = s.months)
    (hfx : ∀ x ∈ s.dollar_rates, 0 < x) :
    ∃ r, computeProjection s = some r ∧
      (∀ i, i < s.months →
        seriesAt r.rent_series_fx i =
          seriesAt r.rent_series i / seriesAt s.dollar_rates i) ∧
      (∀ i, i < s.months →
        seriesAt r.interest_series_fx i =
          seriesAt r.interest_series i / seriesAt s.dollar_rates i) := by
  refine ⟨_, computeProjection_eq s h1 h2, ?_, ?_⟩
  · intro i hi
    exact seriesAt_zipWith _ _ _ i (by rw [rents_length]; exact hi)
      (by rw [h2]; exact hi)
  · intro i hi
    exact seriesAt_zipWith _ _ _ i
      (by rw [interest_income_length, h1]; exact hi) (by rw [h2]; exact hi)

theorem C4_fx_conversion_witness :
    (∀ x ∈ ([39.0, 40.0] : List ℝ), 0 < x) ∧
    ∃ r, computeProjection ⟨2500000, 20000, 0.15, 2, [0.5, 0.4], [39.0, 40.0]⟩ =
        some r ∧
      (∀ i, i < 2 →
        seriesAt r.rent_series_fx i =
          seriesAt r.rent_series i / seriesAt ([39.0, 40.0] : List ℝ) i) ∧
      (∀ i, i < 2 →
        seriesAt r.interest_series_fx i =
          seriesAt r.interest_series i / seriesAt ([39.0, 40.0] : List ℝ) i) :=
  ⟨by norm_num,
    C4_fx_conversion ⟨2500000, 20000, 0.15, 2, [0.5, 0.4], [39.0, 40.0]⟩
      rfl rfl (by norm_num)⟩

/-- C5: on a valid scenario (arrays of the horizon's length, positive fx
rates, annual rates at least -1) the engine succeeds and all four output
series have length exactly the horizon. -/
theorem C5_series_lengths (s : ScenarioInput)
    (h1 : s.annual_rates.length = s.months)
    (h2 : s.dollar_rates.length = s.months)
    (hfx : ∀ x ∈ s.dollar_rates, 0 < x)
    (hr : ∀ a ∈ s.annual_rates, -1 ≤ a) :
    ∃ r, computeProjection s = some r ∧
      r.rent_series.length = s.months ∧
      r.interest_series.length = s.months ∧
      r.rent_series_fx.length = s.months ∧
      r.interest_series_fx.length = s.months := by
  refine ⟨_, computeProjection_eq s h1 h2, rents_length _ _ _, ?_, ?_, ?_⟩
  · rw [interest_income_length, h1]
  · rw [List.length_zipWith, rents_length, h2, Nat.min_self]
  · rw [List.length_zipWith, interest_income_length, h1, h2, Nat.min_self]

theorem C5_series_lengths_witness :
    (∀ x ∈ ([39.0] : List ℝ), 0 < x) ∧
    ∃ r, computeProjection ⟨2500000, 20000, 0.15, 1, [0.5], [39.0]⟩ = some r ∧
      r.rent_series.length = 1 ∧
      r.interest_series.length = 1 ∧
      r.rent_series_fx.length = 1 ∧
      r.interest_series_fx.length = 1 :=
  ⟨by norm_num,
    C5_series_lengths ⟨2500000, 20000, 0.15, 1, [0.5], [39.0]⟩
      rfl rfl (by norm_num) (by norm_num)⟩

/-- C8: on a valid scenario the summary is exactly the unweighted arithmetic
mean of the annual rates times 100, the arithmetic mean of the fx rates, and
the arithmetic mean of the rent series. -/
theorem C8_summary_means (s : ScenarioInput)
    (h1 : s.annual_rates.length = s.months)
    (h2 : s.dollar_rates.length = s.months)
    (hfx : ∀ x ∈ s.dollar_rates, 0 < x)
    (hr : ∀ a ∈ s.annual_rates, -1 ≤ a) :
    ∃ r, computeProjection s = some r ∧
      r.summary.avg_interest_annual =
        s.annual_rates.sum / s.annual_rates.length * 100 ∧
      r.summary.avg_dollar_rate = s.dollar_rates.sum / s.dollar_rates.length ∧
      r.summary.avg_monthly_rent = r.rent_series.sum / r.rent_series.length :=
  ⟨_, computeProjection_eq s h1 h2, rfl, rfl, rfl⟩

theorem C8_summary_means_witness :
    (∀ x ∈ ([39.0] : List ℝ), 0 < x) ∧
    ∃ r, computeProjection ⟨2500000, 20000, 0.15, 1, [0.5], [39.0]⟩ = some r ∧
      r.summary.avg_interest_annual =
        ([0.5] : List ℝ).sum / ([0.5] : List ℝ).length * 100 ∧
      r.summary.avg_dollar_rate =
        ([39.0] : List ℝ).sum / ([39.0] : List ℝ).length ∧
      r.summary.avg_monthly_rent = r.rent_series.sum / r.rent_series.length :=
  ⟨by norm_num,
    C8_summary_means ⟨2500000, 20000, 0.15, 1, [0.5], [39.0]⟩
      rfl rfl (by norm_num) (by norm_num)⟩

/-- C9: the engine is deterministic: it is a pure function of the scenario
input, so identical inputs give identical projection results. -/
theorem C9_deterministic (s1 s2 : ScenarioInput) (h : s1 = s2) :
    computeProjection s1 = computeProjection s2 := by
  rw [h]

theorem C9_deterministic_witness :
    computeProjection defaultInput = computeProjection defaultInput :=
  C9_deterministic defaultInput defaultInput rfl

theorem C10_rent_closed_form_witness :
    (13 : ℕ) < 24 ∧
      (rents 20000 0.15 24)[13]? = some ((20000 : ℝ) * (1 + 0.15) ^ (13 / 6)) :=
  ⟨by norm_num, C10_rent_closed_form 20000 0.15 24 13 (by norm_num)⟩

lemma le_rpow_twelfth (x c : ℝ) (hc : 0 ≤ c) (h : c ^ (12 : ℕ) ≤ x) :
    c ≤ x ^ ((1 : ℝ) / 12) := by
  have h0 : (0 : ℝ) ≤ c ^ (12 : ℕ) := pow_nonneg hc _
  have h1 : ((c ^ (12 : ℕ) : ℝ)) ^ ((1 : ℝ) / 12) ≤ x ^ ((1 : ℝ) / 12) :=
    Real.rpow_le_rpow h0 h (by norm_num)
  have h2 : ((c ^ (12 : ℕ) : ℝ)) ^ ((1 : ℝ) / 12) = c := by
    rw [← Real.rpow_natCast c 12, ← Real.rpow_mul hc]
    norm_num
  rw [← h2]
  exact h1

lemma rpow_twelfth_le (x c : ℝ) (hx : 0 ≤ x) (hc : 0 ≤ c) (h : x ≤ c ^ (12 : ℕ)) :
    x ^ ((1 : ℝ) / 12) ≤ c := by
  have h1 : x ^ ((1 : ℝ) / 12) ≤ ((c ^ (12 : ℕ) : ℝ)) ^ ((1 : ℝ) / 12) :=
    Real.rpow_le_rpow hx h (by norm_num)
  have h2 : ((c ^ (12 : ℕ) : ℝ)) ^ ((1 : ℝ) / 12) = c := by
    rw [← Real.rpow_natCast c 12, ← Real.rpow_mul hc]
    norm_num
  rw [← h2]
  exact h1

lemma computeProjection_default :
    computeProjection defaultInput = some
      ⟨rents 20000 0.15 24,
       interest_income 2500000 default_annual_rates,
       List.zipWith (fun a b => a / b) (rents 20000 0.15 24) default_dollar_rates,
       List.zipWith (fun a b => a / b)
         (interest_income 2500000 default_annual_rates) default_dollar_rates,
       ⟨npMean default_annual_rates * 100, npMean default_dollar_rates,
        npMean (rents 20000 0.15 24)⟩⟩ :=
  computeProjection_eq defaultInput (by simp [defaultInput, default_annual_rates]) rfl

lemma proj_rent_series_default :
    proj_rent_series defaultInput = rents 20000 0.15 24 := by
  rw [proj_rent_series, computeProjection_default]
  rfl

lemma proj_interest_series_default :
    proj_interest_series defaultInput = interest_income 2500000 default_annual_rates := by
  rw [proj_interest_series, computeProjection_default]
  rfl

lemma proj_rent_series_fx_default :
    proj_rent_series_fx defaultInput =
      List.zipWith (fun a b => a / b) (rents 20000 0.15 24) default_dollar_rates := by
  rw [proj_rent_series_fx, computeProjection_default]
  rfl

lemma interest_default_head :
    seriesAt (interest_income 2500000 default_annual_rates) 0 =
      2500000 * ((1 + 0.50) ^ ((1 : ℝ) / 12) - 1) := by
  simp [interest_income, monthly_rates, default_annual_rates, seriesAt,
    List.replicate_succ]

lemma interest_default_head_lower :
    (85914 : ℝ) ≤ seriesAt (interest_income 2500000 default_annual_rates) 0 := by
  rw [interest_default_head]
  have h15 : (1 + 0.50 : ℝ) = 3 / 2 := by norm_num
  have hl : (1.0343656 : ℝ) ≤ (3 / 2 : ℝ) ^ ((1 : ℝ) / 12) :=
    le_rpow_twelfth (3 / 2) 1.0343656 (by norm_num) (by norm_num)
  rw [h15]
  linarith

lemma interest_default_head_upper :
    seriesAt (interest_income 2500000 default_annual_rates) 0 ≤ (85916 : ℝ) := by
  rw [interest_default_head]
  have h15 : (1 + 0.50 : ℝ) = 3 / 2 := by norm_num
  have hu : (3 / 2 : ℝ) ^ ((1 : ℝ) / 12) ≤ (1.0343664 : ℝ) :=
    rpow_twelfth_le (3 / 2) 1.0343664 (by norm_num) (by norm_num) (by norm_num)
  rw [h15]
  linarith

/-- C3 (as stated) is false at the interest entry: on the default scenario
the first interest income is about 85,915 TL, more than one unit away from
the 85,453 the spec announces. -/
theorem C3_default_scenario_counterexample :
    1 < |seriesAt (proj_interest_series defaultInput) 0 - 85453| := by
  rw [proj_interest_series_default]
  have hl := interest_default_head_lower
  have habs :=
    le_abs_self (seriesAt (interest_income 2500000 default_annual_rates) 0 - 85453)
  linarith

/-- C3 amended: on the default scenario the engine yields
rent_series 0 = 20000, rent_series 6 = 23000, rent_series 12 = 26450,
rent_series 18 = 30417.5, interest_series 0 = 2500000 * ((1.5)^(1/12) - 1),
which is about 85,915 (not 85,453) within one unit, and
rent_series_fx 0 = 20000 / 39, about 512.82. -/
theorem C3_default_scenario_values :
    seriesAt (proj_rent_series defaultInput) 0 = 20000 ∧
    seriesAt (proj_rent_series defaultInput) 6 = 23000 ∧
    seriesAt (proj_rent_series defaultInput) 12 = 26450 ∧
    seriesAt (proj_rent_series defaultInput) 18 = 30417.5 ∧
    seriesAt (proj_interest_series defaultInput) 0 =
      2500000 * ((1 + 0.50) ^ ((1 : ℝ) / 12) - 1) ∧
    |seriesAt (proj_interest_series defaultInput) 0 - 85915| ≤ 1 ∧
    seriesAt (proj_rent_series_fx defaultInput) 0 = 20000 / 39.0 ∧
    |seriesAt (proj_rent_series_fx defaultInput) 0 - 512.82| ≤ 0.01 := by
  have hfx0 : seriesAt (proj_rent_series_fx defaultInput) 0 = 20000 / 39.0 := by
    rw [proj_rent_series_fx_default,
      seriesAt_zipWith _ _ _ 0 (by rw [rents_length]; norm_num)
        (by rw [show default_dollar_rates.length = 24 from rfl]; norm_num),
      seriesAt_rents _ _ _ _ (by norm_num)]
    norm_num [seriesAt, default_dollar_rates]
  refine ⟨?_, ?_, ?_, ?_, ?_, ?_, hfx0, ?_⟩
  · rw [proj_rent_series_default, seriesAt_rents _ _ _ _ (by norm_num)]
    norm_num
  · rw [proj_rent_series_default, seriesAt_rents _ _ _ _ (by norm_num)]
    norm_num
  · rw [proj_rent_series_default, seriesAt_rents _ _ _ _ (by norm_num)]
    norm_num
  · rw [proj_rent_series_default, seriesAt_rents _ _ _ _ (by norm_num)]
    norm_num
  · rw [proj_interest_series_default]
    exact interest_default_head
  · rw [proj_interest_series_default, abs_le]
    have hl := interest_default_head_lower
    have hu := interest_default_head_upper
    constructor <;> linarith
  · rw [hfx0, abs_le]
    constructor <;> norm_num

/-- C6 (as stated) is false: on a scenario with fx rate 0 and annual rate
-200% the engine still produces a result instead of aborting. -/
theorem C6_no_domain_error_counterexample :
    (computeProjection zeroFxInput).isSome = true := by
  rw [computeProjection_eq zeroFxInput rfl rfl]
  rfl

/-- C6 amended: the code contains no domain validation at all: whenever the
two arrays have the horizon's length the engine produces a full result,
regardless of the sign of the fx rates or of annual rates below -1; no
DomainError exists (a zero fx rate merely yields a non-finite quotient). -/
theorem C6_no_domain_check (s : ScenarioInput)
    (h1 : s.annual_rates.length = s.months)
    (h2 : s.dollar_rates.length = s.months) :
    (computeProjection s).isSome = true := by
  rw [computeProjection_eq s h1 h2]
  rfl

theorem C6_no_domain_check_witness :
    ((⟨1, 1, 0, 1, [-2], [-5]⟩ : ScenarioInput).annual_rates.length =
        (⟨1, 1, 0, 1, [-2], [-5]⟩ : ScenarioInput).months) ∧
    (computeProjection ⟨1, 1, 0, 1, [-2], [-5]⟩).isSome = true :=
  ⟨rfl, C6_no_domain_check ⟨1, 1, 0, 1, [-2], [-5]⟩ rfl rfl⟩

/-- C7 (as stated) is false: a length-1 fx array on a two-month horizon is
broadcast by numpy, so the engine produces a result instead of raising. -/
theorem C7_broadcast_counterexample :
    (computeProjection shortFxInput).isSome = true := by
  have e1 := npDivide_broadcast (rents 20000 0.15 2) [39.0]
    (by rw [rents_length]; norm_num) rfl
  have e2 := npDivide_broadcast (interest_income 2500000 [0.5, 0.5]) [39.0]
    (by rw [interest_income_length]; norm_num) rfl
  simp [computeProjection, shortFxInput, e1, e2]

/-- C7 amended: when a supplied array (fx or rate) has a length that differs
from the horizon and no length-1 broadcast applies, the elementwise division
is a fatal numpy shape error (not a dedicated InputLengthError, which does
not exist in the code) and the engine yields no result at all, not even a
partial one; a length-1 operand broadcasts instead of failing. -/
theorem C7_shape_error (s : ScenarioInput) :
    (s.dollar_rates.length ≠ s.months → s.dollar_rates.length ≠ 1 →
      s.months ≠ 1 → computeProjection s = none) ∧
    (s.annual_rates.length ≠ s.months → s.annual_rates.length ≠ 1 →
      s.dollar_rates.length = s.months → s.months ≠ 1 →
      computeProjection s = none) := by
  constructor
  · intro h1 h2 h3
    have e1 : npDivide (rents s.monthly_rent s.rent_increase s.months)
        s.dollar_rates = none :=
      npDivide_none _ _ (by rw [rents_length]; exact fun hh => h1 hh.symm) h2
        (by rw [rents_length]; exact h3)
    cases e2 : npDivide (interest_income s.initial_investment s.annual_rates)
        s.dollar_rates with
    | none => simp [computeProjection, e1, e2]
    | some v => simp [computeProjection, e1, e2]
  · intro h1 h2 hfx h3
    have e2 : npDivide (interest_income s.initial_investment s.annual_rates)
        s.dollar_rates = none :=
      npDivide_none _ _ (by rw [interest_income_length, hfx]; exact h1)
        (by rw [hfx]; exact h3) (by rw [interest_income_length]; exact h2)
    cases e1 : npDivide (rents s.monthly_rent s.rent_increase s.months)
        s.dollar_rates with
    | none => simp [computeProjection, e1, e2]
    | some v => simp [computeProjection, e1, e2]

theorem C7_shape_error_witness :
    (longFxInput.dollar_rates.length ≠ longFxInput.months) ∧
    computeProjection longFxInput = none ∧
    (longRatesInput.annual_rates.length ≠ longRatesInput.months) ∧
    computeProjection longRatesInput = none :=
  ⟨by simp [longFxInput],
    (C7_shape_error longFxInput).1 (by simp [longFxInput]) (by simp [longFxInput])
      (by simp [longFxInput]),
    by simp [longRatesInput],
    (C7_shape_error longRatesInput).2 (by simp [longRatesInput])
      (by simp [longRatesInput]) rfl (by simp [longRatesInput])⟩

end ROI
